import Mathlib

/-!
Verification of the Babylon.js frame-graph subsystem against its specification.

The definitions below are shallow embeddings of the TypeScript sources:
- `FrameGraphGeometryRendererTask` (frameGraphGeometryRendererTask.ts): the
  multi-render-target geometry pass, its clear-attachment layout algorithm,
  its depth-texture compatibility check and its render-pass recording.
- `NodeRenderGraphBloomPostProcessBlock` (bloomPostProcessBlock.ts): the
  BasedOnInput type resolver installed in its constructor.
- `NodeRenderGraphTeleportOutBlock` (teleportOutBlock.ts): build, clone and
  (de)serialization of the teleport receiver block.

Machine numbers are modelled as `Nat` (all values involved are small
non-negative integers), thrown exceptions as `Except String`, and the calls a
task issues against the graphics device as an explicit trace of `DeviceCall`
values in registration order.
-/

/-- The clear categories of the geometry plane catalogue
(`TextureClearType` in materialHelper.geometryrendering.ts):
clear to transparent zero, to opaque white, or to the large sentinel value. -/
inductive TextureClearType where
  | Zero
  | One
  | MaxViewZ
deriving DecidableEq, Repr

/-- An RGBA color, components as natural numbers (all clear colors used by the
geometry renderer have non-negative integer components). -/
structure Color4 where
  r : Nat
  g : Nat
  b : Nat
  a : Nat
deriving DecidableEq, Repr

/-- The fixed clear colors of frameGraphGeometryRendererTask.ts:
`clearColors = [new Color4(0,0,0,0), new Color4(1,1,1,1), new Color4(1e8,...)]`,
indexed by the numeric value of `TextureClearType`. -/
def clearColors : TextureClearType → Color4
  | .Zero => ⟨0, 0, 0, 0⟩
  | .One => ⟨1, 1, 1, 1⟩
  | .MaxViewZ => ⟨100000000, 100000000, 100000000, 100000000⟩

/-- One entry of the geometry plane catalogue
(`MaterialHelperGeometryRendering.GeometryTextureDescriptions`): a plane type
tag, its display name, its clear category and its shader define index. -/
structure GeometryTextureDescription where
  type : Nat
  name : String
  clearType : TextureClearType
  defineIndex : Nat
deriving DecidableEq, Repr

/-- `IFrameGraphGeometryRendererTextureDescription`: one requested output
plane of the geometry renderer task. -/
structure GeometryRendererTextureDescription where
  type : Nat
  textureType : Nat
  textureFormat : Nat
deriving DecidableEq, Repr

/-- Looks a plane type up in the catalogue, as the task code does with
`GeometryTextureDescriptions.findIndex((f) => f.type === description.type)`
followed by indexing. -/
def findGeometryDescription (cat : List GeometryTextureDescription) (t : Nat) :
    Option GeometryTextureDescription :=
  cat.find? (fun f => f.type == t)

/-- The clear kind of every requested plane, in order; `none` when some plane
type is absent from the catalogue. -/
def resolveKinds (cat : List GeometryTextureDescription) :
    List GeometryRendererTextureDescription → Option (List TextureClearType)
  | [] => some []
  | d :: rest =>
    match findGeometryDescription cat d.type with
    | none => none
    | some g => (resolveKinds cat rest).map (g.clearType :: ·)

/-- One iteration of the loop body of `_buildClearAttachmentsLayout` for a
plane whose clear kind is `ct`, where `i` planes were processed before: if
`ct` has no entry yet, append an entry pre-filled with `i` `false`s (the JS
`Map.set` appends in insertion order); then push onto every entry the flag
"this entry's kind is `ct`" (the JS `forEach` push). -/
def clearLayoutStep (m : List (TextureClearType × List Bool)) (i : Nat)
    (ct : TextureClearType) : List (TextureClearType × List Bool) :=
  let m1 := if (m.find? (fun p => p.1 == ct)).isSome then m
            else m ++ [(ct, List.replicate i false)]
  m1.map (fun p => (p.1, p.2 ++ [p.1 == ct]))

/-- The loop of `_buildClearAttachmentsLayout`: walk the texture descriptions,
look each plane up in the catalogue, update the per-kind layouts and push
`true` onto the all-attachments layout. `none` models the crash on a plane
type missing from the catalogue (never reached from `recordFrameGraph`, which
validates the types first). -/
def clearLayoutLoop (cat : List GeometryTextureDescription) :
    List GeometryRendererTextureDescription → Nat →
    List (TextureClearType × List Bool) → List Bool →
    Option (List (TextureClearType × List Bool) × List Bool)
  | [], _, m, all => some (m, all)
  | d :: rest, i, m, all =>
    match findGeometryDescription cat d.type with
    | none => none
    | some g => clearLayoutLoop cat rest (i + 1) (clearLayoutStep m i g.clearType) (all ++ [true])

/-- `_buildClearAttachmentsLayout` of `FrameGraphGeometryRendererTask`, up to
(but not including) the final conversion of each boolean array through
`engine.buildTextureLayout`: returns the insertion-ordered map from clear kind
to boolean layout, and the all-attachments boolean layout. -/
def buildClearAttachmentsLayoutBool (cat : List GeometryTextureDescription)
    (descs : List GeometryRendererTextureDescription) :
    Option (List (TextureClearType × List Bool) × List Bool) :=
  clearLayoutLoop cat descs 0 [] []

/-- Specification of the per-kind layouts after processing planes with clear
kinds `ks`: the entry keys are distinct, they are exactly the kinds occurring
in `ks`, and the layout stored under key `k` is `true` at position `j` iff
`ks` has kind `k` at position `j`. -/
def LayoutsSpec (ks : List TextureClearType) (m : List (TextureClearType × List Bool)) : Prop :=
  (m.map Prod.fst).Nodup ∧
  (∀ k, k ∈ m.map Prod.fst ↔ k ∈ ks) ∧
  ∀ p ∈ m, p.2 = ks.map (fun k2 => p.1 == k2)

theorem keys_map_push (m : List (TextureClearType × List Bool)) (k0 : TextureClearType) :
    (m.map (fun p => (p.1, p.2 ++ [p.1 == k0]))).map Prod.fst = m.map Prod.fst := by
  simp [List.map_map, Function.comp]

theorem map_beq_of_not_mem {k0 : TextureClearType} {ks : List TextureClearType}
    (h : k0 ∉ ks) : ks.map (fun k2 => k0 == k2) = List.replicate ks.length false := by
  induction ks with
  | nil => rfl
  | cons a l ih =>
    have h1 : k0 ≠ a := fun he => h (he ▸ List.mem_cons_self a l)
    have h2 : k0 ∉ l := fun he => h (List.mem_cons_of_mem a he)
    simp [ih h2, beq_eq_false_iff_ne, h1, List.replicate_succ]

theorem find_isSome_iff_mem_keys (m : List (TextureClearType × List Bool))
    (k0 : TextureClearType) :
    (m.find? (fun p => p.1 == k0)).isSome ↔ k0 ∈ m.map Prod.fst := by
  rw [List.find?_isSome]
  constructor
  · rintro ⟨p, hp, he⟩
    exact List.mem_map.mpr ⟨p, hp, eq_of_beq he⟩
  · rintro hm
    rcases List.mem_map.mp hm with ⟨p, hp, he⟩
    exact ⟨p, hp, by simp [he]⟩

theorem clearLayoutStep_spec {ks : List TextureClearType}
    {m : List (TextureClearType × List Bool)} (h : LayoutsSpec ks m) (k0 : TextureClearType) :
    LayoutsSpec (ks ++ [k0]) (clearLayoutStep m ks.length k0) := by
  obtain ⟨hnd, hmem, hlay⟩ := h
  unfold clearLayoutStep
  by_cases hin : (m.find? (fun p => p.1 == k0)).isSome
  · have hks : k0 ∈ ks := (hmem k0).mp ((find_isSome_iff_mem_keys m k0).mp hin)
    simp only [hin, if_true]
    refine ⟨?_, ?_, ?_⟩
    · rw [keys_map_push]; exact hnd
    · intro k
      rw [keys_map_push]
      rw [hmem k]
      constructor
      · intro hk; exact List.mem_append_left _ hk
      · intro hk
        rcases List.mem_append.mp hk with hk | hk
        · exact hk
        · simp only [List.mem_singleton] at hk
          subst hk
          exact hks
    · intro p hp
      rcases List.mem_map.mp hp with ⟨q, hq, hpq⟩
      subst hpq
      simp only [List.map_append, List.map_cons, List.map_nil]
      rw [hlay q hq]
  · have hks : k0 ∉ ks := fun hk =>
      hin ((find_isSome_iff_mem_keys m k0).mpr ((hmem k0).mpr hk))
    simp only [hin, Bool.false_eq_true, if_false]
    refine ⟨?_, ?_, ?_⟩
    · rw [keys_map_push, List.map_append]
      rw [List.nodup_append]
      refine ⟨hnd, List.nodup_singleton _, ?_⟩
      intro a ha hb
      simp only [List.map_cons, List.map_nil, List.mem_singleton] at hb
      subst hb
      exact hin ((find_isSome_iff_mem_keys m a).mpr ha)
    · intro k
      rw [keys_map_push, List.map_append]
      simp only [List.mem_append, List.map_cons, List.map_nil, List.mem_singleton]
      rw [hmem k]
    · intro p hp
      rcases List.mem_map.mp hp with ⟨q, hq, hpq⟩
      subst hpq
      rcases List.mem_append.mp hq with hq | hq
      · simp only [List.map_append, List.map_cons, List.map_nil]
        rw [hlay q hq]
      · simp only [List.mem_singleton] at hq
        subst hq
        simp only [List.map_append, List.map_cons, List.map_nil]
        rw [map_beq_of_not_mem hks]

theorem resolveKinds_length (cat : List GeometryTextureDescription) :
    ∀ (descs : List GeometryRendererTextureDescription) (ks : List TextureClearType),
      resolveKinds cat descs = some ks → ks.length = descs.length := by
  intro descs
  induction descs with
  | nil => intro ks h; simp [resolveKinds] at h; subst h; rfl
  | cons d rest ih =>
    intro ks h
    simp only [resolveKinds] at h
    cases hf : findGeometryDescription cat d.type with
    | none => rw [hf] at h; simp at h
    | some g =>
      rw [hf] at h
      cases hr : resolveKinds cat rest with
      | none => rw [hr] at h; simp at h
      | some ks3 =>
        rw [hr] at h
        simp only [Option.map_some] at h
        cases h
        simp [ih ks3 hr]

theorem clearLayoutLoop_spec (cat : List GeometryTextureDescription) :
    ∀ (descs : List GeometryRendererTextureDescription) (ks : List TextureClearType)
      (m : List (TextureClearType × List Bool)) (all : List Bool) (ks2 : List TextureClearType),
      LayoutsSpec ks m → resolveKinds cat descs = some ks2 →
      ∃ mr, clearLayoutLoop cat descs ks.length m all =
          some (mr, all ++ List.replicate descs.length true) ∧
        LayoutsSpec (ks ++ ks2) mr := by
  intro descs
  induction descs with
  | nil =>
    intro ks m all ks2 h hr
    simp only [resolveKinds, Option.some.injEq] at hr
    subst hr
    exact ⟨m, by simp [clearLayoutLoop], by simpa using h⟩
  | cons d rest ih =>
    intro ks m all ks2 h hr
    simp only [resolveKinds] at hr
    cases hf : findGeometryDescription cat d.type with
    | none => rw [hf] at hr; simp at hr
    | some g =>
      rw [hf] at hr
      cases hr2 : resolveKinds cat rest with
      | none => rw [hr2] at hr; simp at hr
      | some ks3 =>
        rw [hr2] at hr
        have hr3 : ks2 = g.clearType :: ks3 := by simpa using hr.symm
        subst hr3
        have hstep := clearLayoutStep_spec h g.clearType
        obtain ⟨mr, hloop, hspec⟩ :=
          ih (ks ++ [g.clearType]) (clearLayoutStep m ks.length g.clearType)
            (all ++ [true]) ks3 hstep hr2
        refine ⟨mr, ?_, ?_⟩
        · simp only [clearLayoutLoop, hf]
          rw [show (ks ++ [g.clearType]).length = ks.length + 1 by simp] at hloop
          rw [hloop]
          simp [List.append_assoc, List.replicate_succ]
        · simpa [List.append_assoc] using hspec

theorem buildClearAttachmentsLayoutBool_spec (cat : List GeometryTextureDescription)
    (descs : List GeometryRendererTextureDescription) (ks : List TextureClearType)
    (hr : resolveKinds cat descs = some ks) :
    ∃ mr, buildClearAttachmentsLayoutBool cat descs =
        some (mr, List.replicate descs.length true) ∧ LayoutsSpec ks mr := by
  have h0 : LayoutsSpec [] [] := ⟨List.nodup_nil, by simp, by simp⟩
  obtain ⟨mr, hl, hs⟩ := clearLayoutLoop_spec cat descs [] [] [] ks h0 hr
  exact ⟨mr, by simpa [buildClearAttachmentsLayoutBool] using hl, by simpa using hs⟩

theorem layoutsSpec_partition {ks : List TextureClearType}
    {m : List (TextureClearType × List Bool)} (h : LayoutsSpec ks m)
    {i : Nat} (hi : i < ks.length) :
    ∃! p : TextureClearType × List Bool, p ∈ m ∧ p.2[i]? = some true := by
  obtain ⟨hnd, hmem, hlay⟩ := h
  have hkmem : ks[i] ∈ ks := List.getElem_mem hi
  obtain ⟨q, hq, hq1⟩ := List.mem_map.mp ((hmem ks[i]).mpr hkmem)
  have hqlay := hlay q hq
  have hgetq : q.2[i]? = some true := by
    rw [hqlay, List.getElem?_map, List.getElem?_eq_getElem hi]
    simp [hq1]
  refine ⟨q, ⟨hq, hgetq⟩, ?_⟩
  rintro p ⟨hp, hpg⟩
  have hplay := hlay p hp
  have hkey : p.1 = ks[i] := by
    rw [hplay, List.getElem?_map, List.getElem?_eq_getElem hi] at hpg
    simpa using hpg
  have hval : p.2 = q.2 := by rw [hplay, hqlay, hkey, hq1]
  exact Prod.ext (hkey.trans hq1.symm) hval

/-- The reserved handle denoting the swap chain's own depth/stencil buffer.
Modelled from the spec: a reserved sentinel value denotes "the swap-chain's own
depth/stencil buffer" (`backbufferDepthStencilTextureHandle` is declared in
frameGraphTypes.ts, outside the analysed sources); only comparisons against the
sentinel matter, so its concrete value is arbitrary. -/
def backbufferDepthStencilTextureHandle : Nat := 1

/-- The descriptor the task passes to `frameGraph.createRenderTargetTexture`
in `_createMultiRenderTargetTexture`. -/
structure RenderTargetDescriptor where
  name : String
  width : Nat
  height : Nat
  sizeIsPercentage : Bool
  textureCount : Nat
  samples : Nat
  types : List Nat
  formats : List Nat
  labels : List String
deriving DecidableEq, Repr

/-- Modelled from the spec: the external collaborators the geometry renderer
task calls into (the frame-graph texture-handle table, frameGraph.ts, and the
graphics-device capability, both outside the analysed sources):
`getTextureHandle` resolves a texture id to a handle, `getTextureSamples`
reads a handle's descriptor sample count (`options.samples`),
`createRenderTargetTexture` allocates a handle for a descriptor, and
`buildTextureLayout` converts a boolean layout to the device's native
attachment-bitmask form. -/
structure FrameGraphEnv where
  getTextureHandle : Nat → Nat
  getTextureSamples : Nat → Nat
  createRenderTargetTexture : RenderTargetDescriptor → Nat
  buildTextureLayout : List Bool → List Nat

/-- The configurable state of `FrameGraphGeometryRendererTask` read by
`recordFrameGraph`; `none` models the TS `undefined`. -/
structure GeometryRendererTask where
  name : String
  depthTexture : Option Nat
  objectList : Option Nat
  depthTest : Bool := true
  depthWrite : Bool := true
  width : Nat := 100
  height : Nat := 100
  sizeIsPercentage : Bool := true
  samples : Nat := 1
  textureDescriptions : List GeometryRendererTextureDescription := []
deriving DecidableEq, Repr

/-- One call the recorded execute closure issues against the render context,
in issue order. -/
inductive DeviceCall where
  | setRenderList (objectList : Nat)
  | incrementRenderId
  | setDepthStates (depthTest depthWrite : Bool)
  | clearColorAttachments (color : Color4) (layout : List Nat)
  | bindAttachments (layout : List Nat)
  | render
deriving DecidableEq, Repr

/-- The render pass `recordFrameGraph` registers: render-target binding, the
ten logical output bindings, the optional depth target and the execute trace. -/
structure RenderPass where
  name : String
  renderTarget : Nat
  outputTextures : List (Nat × Nat × String)
  renderTargetDepth : Option Nat
  executeTrace : List DeviceCall
deriving DecidableEq, Repr

/-- A state-committing call `recordFrameGraph` makes against the frame graph,
in call order: texture creation and render-pass registration. -/
inductive FrameGraphEffect where
  | createRenderTargetTexture (desc : RenderTargetDescriptor) (handle : Nat)
  | addRenderPass (pass : RenderPass)
deriving DecidableEq, Repr

/-- The loop of `_createMultiRenderTargetTexture`: per requested plane, its
texture type, format and catalogue name (label); throws on the first plane
type missing from the catalogue. -/
def resolveTextureDescriptions (cat : List GeometryTextureDescription) (name : String) :
    List GeometryRendererTextureDescription → Except String (List (Nat × Nat × String))
  | [] => .ok []
  | d :: rest =>
    match findGeometryDescription cat d.type with
    | none => .error ("FrameGraphGeometryRendererTask " ++ name ++ ": unknown texture type "
        ++ toString d.type)
    | some g => (resolveTextureDescriptions cat name rest).map
        (fun l => (d.textureType, d.textureFormat, g.name) :: l)

/-- The ten logical output names bound by the `setOutputTexture` calls of
`recordFrameGraph`, in call order. -/
def geometryOutputNames : List String :=
  ["geometryViewDepth", "geometryScreenDepth", "geometryViewNormal", "geometryWorldNormal",
   "geometryLocalPosition", "geometryWorldPosition", "geometryAlbedo", "geometryReflectivity",
   "geometryVelocity", "geometryLinearVelocity"]

/-- `_checkDepthTextureCompatibility`: `false` when no depth texture is set;
otherwise rejects the back-buffer depth/stencil sentinel, then rejects a
sample-count mismatch against the task's own `samples`, else `true`. -/
def checkDepthTextureCompatibility (env : FrameGraphEnv) (t : GeometryRendererTask) :
    Except String Bool :=
  match t.depthTexture with
  | none => .ok false
  | some texId =>
    let depthTextureHandle := env.getTextureHandle texId
    if depthTextureHandle == backbufferDepthStencilTextureHandle then
      .error ("FrameGraphGeometryRendererTask " ++ t.name ++
        ": the depth/stencil back buffer is not allowed as a depth texture")
    else if env.getTextureSamples depthTextureHandle != t.samples then
      .error ("FrameGraphGeometryRendererTask " ++ t.name ++
        ": the depth texture and the output texture must have the same number of samples")
    else .ok true

/-- The render-target descriptor `_createMultiRenderTargetTexture` passes to
`frameGraph.createRenderTargetTexture`, from the task configuration and the
resolved per-plane data. -/
def geometryRendererDescriptor (t : GeometryRendererTask)
    (resolved : List (Nat × Nat × String)) : RenderTargetDescriptor :=
  { name := t.name, width := t.width, height := t.height,
    sizeIsPercentage := t.sizeIsPercentage,
    textureCount := t.textureDescriptions.length, samples := t.samples,
    types := resolved.map (fun r => r.1), formats := resolved.map (fun r => r.2.1),
    labels := resolved.map (fun r => r.2.2) }

/-- The render pass `recordFrameGraph` registers once all checks have passed:
the render-target binding, the ten logical output bindings, the resolved depth
target when a depth texture is set, and the execute closure's device-call
trace (set the render list, bump the render id, set depth states, one clear
per distinct clear kind, bind all attachments, render). -/
def geometryRendererPass (env : FrameGraphEnv) (t : GeometryRendererTask) (ol : Nat)
    (outputTextureHandle : Nat) (depthEnabled : Bool)
    (clearBool : List (TextureClearType × List Bool)) (allBool : List Bool) : RenderPass :=
  { name := t.name
    renderTarget := outputTextureHandle
    outputTextures := geometryOutputNames.map (fun n => (outputTextureHandle, 0, n))
    renderTargetDepth := t.depthTexture.map env.getTextureHandle
    executeTrace :=
      [DeviceCall.setRenderList ol, DeviceCall.incrementRenderId,
       DeviceCall.setDepthStates (t.depthTest && depthEnabled) (t.depthWrite && depthEnabled)] ++
      clearBool.map
        (fun p => DeviceCall.clearColorAttachments (clearColors p.1) (env.buildTextureLayout p.2)) ++
      [DeviceCall.bindAttachments (env.buildTextureLayout allBool), DeviceCall.render] }

/-- `recordFrameGraph` of `FrameGraphGeometryRendererTask`: validate the
configuration, create the multi-render-target texture, check depth
compatibility, build the clear-attachment layouts and register one render
pass whose execute closure is represented by its device-call trace. Returns
the registered pass (or the thrown error message) together with the
frame-graph commits performed before returning or throwing. The TS code tests
`textureDescriptions.length === 0 || this.objectList === undefined` in one
condition with a single message; matching `objectList` first is
observationally identical. -/
def recordFrameGraph (env : FrameGraphEnv) (cat : List GeometryTextureDescription)
    (t : GeometryRendererTask) : Except String RenderPass × List FrameGraphEffect :=
  match t.objectList with
  | none => (.error ("FrameGraphGeometryRendererTask " ++ t.name ++
      ": object list and at least one geometry texture description must be provided"), [])
  | some ol =>
    if t.textureDescriptions.length == 0 then
      (.error ("FrameGraphGeometryRendererTask " ++ t.name ++
        ": object list and at least one geometry texture description must be provided"), [])
    else
      match resolveTextureDescriptions cat t.name t.textureDescriptions with
      | .error e => (.error e, [])
      | .ok resolved =>
        let desc := geometryRendererDescriptor t resolved
        let outputTextureHandle := env.createRenderTargetTexture desc
        let eff1 := FrameGraphEffect.createRenderTargetTexture desc outputTextureHandle
        match checkDepthTextureCompatibility env t with
        | .error e => (.error e, [eff1])
        | .ok depthEnabled =>
          match buildClearAttachmentsLayoutBool cat t.textureDescriptions with
          | none =>
            -- dead branch: `resolveTextureDescriptions` has already validated
            -- every plane type (in the TS code this would be a TypeError crash)
            (.error "TypeError", [eff1])
          | some (clearBool, allBool) =>
            let pass := geometryRendererPass env t ol outputTextureHandle depthEnabled
              clearBool allBool
            (.ok pass, [eff1, FrameGraphEffect.addRenderPass pass])

theorem checkDepth_none (env : FrameGraphEnv) (t : GeometryRendererTask)
    (h : t.depthTexture = none) : checkDepthTextureCompatibility env t = .ok false := by
  unfold checkDepthTextureCompatibility
  rw [h]

theorem checkDepth_backbuffer (env : FrameGraphEnv) (t : GeometryRendererTask) (dt : Nat)
    (hdt : t.depthTexture = some dt)
    (hb : env.getTextureHandle dt = backbufferDepthStencilTextureHandle) :
    checkDepthTextureCompatibility env t = .error ("FrameGraphGeometryRendererTask " ++ t.name ++
      ": the depth/stencil back buffer is not allowed as a depth texture") := by
  unfold checkDepthTextureCompatibility
  rw [hdt]
  simp only [hb, beq_self_eq_true, if_true]

theorem checkDepth_mismatch (env : FrameGraphEnv) (t : GeometryRendererTask) (dt : Nat)
    (hdt : t.depthTexture = some dt)
    (hnb : env.getTextureHandle dt ≠ backbufferDepthStencilTextureHandle)
    (hsm : env.getTextureSamples (env.getTextureHandle dt) ≠ t.samples) :
    checkDepthTextureCompatibility env t = .error ("FrameGraphGeometryRendererTask " ++ t.name ++
      ": the depth texture and the output texture must have the same number of samples") := by
  unfold checkDepthTextureCompatibility
  rw [hdt]
  simp only [hnb, hsm, beq_iff_eq, if_false, bne_iff_ne, ne_eq, not_false_eq_true, if_true]

theorem checkDepth_compatible (env : FrameGraphEnv) (t : GeometryRendererTask) (dt : Nat)
    (hdt : t.depthTexture = some dt)
    (hnb : env.getTextureHandle dt ≠ backbufferDepthStencilTextureHandle)
    (hsm : env.getTextureSamples (env.getTextureHandle dt) = t.samples) :
    checkDepthTextureCompatibility env t = .ok true := by
  unfold checkDepthTextureCompatibility
  rw [hdt]
  simp only [hnb, hsm, beq_iff_eq, if_false, bne_self_eq_false, Bool.false_eq_true, if_false]

theorem recordFrameGraph_configError (env : FrameGraphEnv)
    (cat : List GeometryTextureDescription) (t : GeometryRendererTask)
    (h : t.textureDescriptions = [] ∨ t.objectList = none) :
    recordFrameGraph env cat t =
      (.error ("FrameGraphGeometryRendererTask " ++ t.name ++
        ": object list and at least one geometry texture description must be provided"), []) := by
  unfold recordFrameGraph
  cases ho : t.objectList with
  | none => rfl
  | some ol =>
    rcases h with h | h
    · rw [h]; rfl
    · rw [h] at ho; cases ho

theorem recordFrameGraph_depthError (env : FrameGraphEnv)
    (cat : List GeometryTextureDescription) (t : GeometryRendererTask)
    (ol : Nat) (resolved : List (Nat × Nat × String)) (e : String)
    (hol : t.objectList = some ol) (hne : t.textureDescriptions ≠ [])
    (hres : resolveTextureDescriptions cat t.name t.textureDescriptions = .ok resolved)
    (hdep : checkDepthTextureCompatibility env t = .error e) :
    recordFrameGraph env cat t =
      (.error e, [FrameGraphEffect.createRenderTargetTexture (geometryRendererDescriptor t resolved)
        (env.createRenderTargetTexture (geometryRendererDescriptor t resolved))]) := by
  have h0 : (t.textureDescriptions.length == 0) = false := by
    simp [List.length_eq_zero]
    exact hne
  unfold recordFrameGraph
  rw [hol, h0, hres, hdep]
  simp

theorem recordFrameGraph_ok (env : FrameGraphEnv) (cat : List GeometryTextureDescription)
    (t : GeometryRendererTask) (ol : Nat) (resolved : List (Nat × Nat × String))
    (depthEnabled : Bool) (clearBool : List (TextureClearType × List Bool)) (allBool : List Bool)
    (hol : t.objectList = some ol) (hne : t.textureDescriptions ≠ [])
    (hres : resolveTextureDescriptions cat t.name t.textureDescriptions = .ok resolved)
    (hdep : checkDepthTextureCompatibility env t = .ok depthEnabled)
    (hbuild : buildClearAttachmentsLayoutBool cat t.textureDescriptions
      = some (clearBool, allBool)) :
    recordFrameGraph env cat t =
      (.ok (geometryRendererPass env t ol
          (env.createRenderTargetTexture (geometryRendererDescriptor t resolved))
          depthEnabled clearBool allBool),
       [FrameGraphEffect.createRenderTargetTexture (geometryRendererDescriptor t resolved)
          (env.createRenderTargetTexture (geometryRendererDescriptor t resolved)),
        FrameGraphEffect.addRenderPass (geometryRendererPass env t ol
          (env.createRenderTargetTexture (geometryRendererDescriptor t resolved))
          depthEnabled clearBool allBool)]) := by
  have h0 : (t.textureDescriptions.length == 0) = false := by
    simp [List.length_eq_zero]
    exact hne
  unfold recordFrameGraph
  rw [hol, h0, hres, hdep, hbuild]
  simp

/-- A sample geometry plane catalogue used to exercise the theorems on
concrete inputs (the real catalogue lives outside the analysed sources; the
algorithms are parametric in it). -/
def sampleCatalogue : List GeometryTextureDescription :=
  [⟨0, "Irradiance", .Zero, 0⟩, ⟨1, "Albedo", .One, 1⟩, ⟨2, "Velocity", .MaxViewZ, 2⟩]

/-- Three sample output planes: kinds One, MaxViewZ, One. -/
def samplePlanes : List GeometryRendererTextureDescription :=
  [⟨1, 6, 5⟩, ⟨2, 6, 5⟩, ⟨1, 6, 5⟩]

/-- C1: for a non-empty list of N texture descriptions whose plane types all
appear in the geometry plane catalogue (so their clear kinds resolve to `ks`),
`_buildClearAttachmentsLayout` produces, for each distinct clear kind present,
a boolean layout of length N whose index i is true iff plane i's clear kind
matches that kind; consequently the per-kind layouts partition {0..N-1}:
every index is true in exactly one layout. -/
theorem clear_layout_partition_C1
    (cat : List GeometryTextureDescription)
    (descs : List GeometryRendererTextureDescription) (ks : List TextureClearType)
    (_hne : descs ≠ [])
    (hres : resolveKinds cat descs = some ks) :
    ∃ m, buildClearAttachmentsLayoutBool cat descs
        = some (m, List.replicate descs.length true) ∧
      (m.map Prod.fst).Nodup ∧
      (∀ k, k ∈ m.map Prod.fst ↔ k ∈ ks) ∧
      (∀ p ∈ m, p.2.length = descs.length) ∧
      (∀ p ∈ m, ∀ i, i < descs.length → (p.2[i]? = some true ↔ ks[i]? = some p.1)) ∧
      (∀ i, i < descs.length →
        ∃! p : TextureClearType × List Bool, p ∈ m ∧ p.2[i]? = some true) := by
  obtain ⟨m, hb, hspec⟩ := buildClearAttachmentsLayoutBool_spec cat descs ks hres
  have hlen : ks.length = descs.length := resolveKinds_length cat descs ks hres
  obtain ⟨hnd, hmem, hlay⟩ := hspec
  refine ⟨m, hb, hnd, hmem, ?_, ?_, ?_⟩
  · intro p hp
    rw [hlay p hp, List.length_map, hlen]
  · intro p hp i hi
    have hi' : i < ks.length := by rw [hlen]; exact hi
    rw [hlay p hp, List.getElem?_map, List.getElem?_eq_getElem hi']
    simp only [Option.map_some', Option.some.injEq, beq_iff_eq]
    exact eq_comm
  · intro i hi
    have hi' : i < ks.length := by rw [hlen]; exact hi
    exact layoutsSpec_partition ⟨hnd, hmem, hlay⟩ hi'

/-- Witness for C1 at the sample planes (kinds One, MaxViewZ, One). -/
theorem clear_layout_partition_C1_witness :
    samplePlanes ≠ [] ∧
    resolveKinds sampleCatalogue samplePlanes
      = some [TextureClearType.One, TextureClearType.MaxViewZ, TextureClearType.One] ∧
    (∃ m, buildClearAttachmentsLayoutBool sampleCatalogue samplePlanes
        = some (m, List.replicate samplePlanes.length true) ∧
      (m.map Prod.fst).Nodup ∧
      (∀ k, k ∈ m.map Prod.fst ↔
        k ∈ [TextureClearType.One, TextureClearType.MaxViewZ, TextureClearType.One]) ∧
      (∀ p ∈ m, p.2.length = samplePlanes.length) ∧
      (∀ p ∈ m, ∀ i, i < samplePlanes.length → (p.2[i]? = some true ↔
        [TextureClearType.One, TextureClearType.MaxViewZ, TextureClearType.One][i]?
          = some p.1)) ∧
      (∀ i, i < samplePlanes.length →
        ∃! p : TextureClearType × List Bool, p ∈ m ∧ p.2[i]? = some true)) :=
  ⟨by decide, by decide,
    clear_layout_partition_C1 sampleCatalogue samplePlanes
      [TextureClearType.One, TextureClearType.MaxViewZ, TextureClearType.One]
      (by decide) (by decide)⟩

/-- A sample frame-graph environment: texture ids resolve to handle id+10,
every handle's descriptor reports 4 samples, created textures get handle 3,
and the bitmask form of a boolean layout maps true to 1 and false to 0. -/
def sampleEnv : FrameGraphEnv :=
  { getTextureHandle := fun texId => texId + 10
    getTextureSamples := fun _ => 4
    createRenderTargetTexture := fun _ => 3
    buildTextureLayout := fun l => l.map (fun b => if b then 1 else 0) }

/-- A task with an empty texture-description list (the default). -/
def emptyTask : GeometryRendererTask :=
  { name := "geom", depthTexture := none, objectList := some 5 }

/-- A task whose depth texture resolves (under `sampleEnv`) to a non-sentinel
handle with 4 samples while the task itself uses 1 sample. -/
def mismatchTask : GeometryRendererTask :=
  { name := "geom", depthTexture := some 7, objectList := some 5, samples := 1,
    textureDescriptions := samplePlanes }

/-- C5: with no texture descriptions or no object list, `recordFrameGraph`
throws a configuration error naming the task, and the frame-graph commit log
is empty: no render-target texture was created and no render pass was
registered (no partial commit). -/
theorem record_missing_config_throws_C5 (env : FrameGraphEnv)
    (cat : List GeometryTextureDescription) (t : GeometryRendererTask)
    (h : t.textureDescriptions = [] ∨ t.objectList = none) :
    (recordFrameGraph env cat t).1 = .error ("FrameGraphGeometryRendererTask " ++ t.name ++
      ": object list and at least one geometry texture description must be provided") ∧
    (recordFrameGraph env cat t).2 = [] ∧
    List.IsInfix t.name.data ("FrameGraphGeometryRendererTask " ++ t.name ++
      ": object list and at least one geometry texture description must be provided").data := by
  rw [recordFrameGraph_configError env cat t h]
  refine ⟨rfl, rfl, ?_⟩
  exact ⟨"FrameGraphGeometryRendererTask ".data,
    ": object list and at least one geometry texture description must be provided".data,
    by simp [String.data_append]⟩

/-- Witness for C5 at `emptyTask`. -/
theorem record_missing_config_throws_C5_witness :
    (emptyTask.textureDescriptions = [] ∨ emptyTask.objectList = none) ∧
    ((recordFrameGraph sampleEnv sampleCatalogue emptyTask).1
      = .error ("FrameGraphGeometryRendererTask " ++ emptyTask.name ++
        ": object list and at least one geometry texture description must be provided") ∧
    (recordFrameGraph sampleEnv sampleCatalogue emptyTask).2 = [] ∧
    List.IsInfix emptyTask.name.data ("FrameGraphGeometryRendererTask " ++ emptyTask.name ++
      ": object list and at least one geometry texture description must be provided").data) :=
  ⟨Or.inl rfl, record_missing_config_throws_C5 sampleEnv sampleCatalogue emptyTask (Or.inl rfl)⟩

/-- C4: when `depthTexture` is defined and resolves to the swap-chain
depth/stencil sentinel, `recordFrameGraph` throws, and the message names the
offending task. -/
theorem backbuffer_depth_rejected_C4 (env : FrameGraphEnv)
    (cat : List GeometryTextureDescription) (t : GeometryRendererTask)
    (ol dt : Nat) (resolved : List (Nat × Nat × String))
    (hol : t.objectList = some ol) (hne : t.textureDescriptions ≠ [])
    (hres : resolveTextureDescriptions cat t.name t.textureDescriptions = .ok resolved)
    (hdt : t.depthTexture = some dt)
    (hb : env.getTextureHandle dt = backbufferDepthStencilTextureHandle) :
    (recordFrameGraph env cat t).1 = .error ("FrameGraphGeometryRendererTask " ++ t.name ++
      ": the depth/stencil back buffer is not allowed as a depth texture") ∧
    List.IsInfix t.name.data ("FrameGraphGeometryRendererTask " ++ t.name ++
      ": the depth/stencil back buffer is not allowed as a depth texture").data := by
  have hdep := checkDepth_backbuffer env t dt hdt hb
  rw [recordFrameGraph_depthError env cat t ol resolved _ hol hne hres hdep]
  exact ⟨rfl, "FrameGraphGeometryRendererTask ".data,
    ": the depth/stencil back buffer is not allowed as a depth texture".data,
    by simp [String.data_append]⟩

/-- A task whose depth texture resolves (under `sampleEnv`) to the sentinel
handle `backbufferDepthStencilTextureHandle`: texture id 100 maps to... -/
def backbufferTask : GeometryRendererTask :=
  { name := "geom", depthTexture := some 100, objectList := some 5, samples := 4,
    textureDescriptions := samplePlanes }

/-- An environment whose handle resolution sends texture id 100 to the
back-buffer depth/stencil sentinel. -/
def backbufferEnv : FrameGraphEnv :=
  { sampleEnv with getTextureHandle := fun texId =>
      if texId == 100 then backbufferDepthStencilTextureHandle else texId + 10 }

/-- Witness for C4 at `backbufferTask` under `backbufferEnv`. -/
theorem backbuffer_depth_rejected_C4_witness :
    backbufferTask.objectList = some 5 ∧
    backbufferTask.textureDescriptions ≠ [] ∧
    resolveTextureDescriptions sampleCatalogue backbufferTask.name
      backbufferTask.textureDescriptions
      = .ok [(6, 5, "Albedo"), (6, 5, "Velocity"), (6, 5, "Albedo")] ∧
    backbufferTask.depthTexture = some 100 ∧
    backbufferEnv.getTextureHandle 100 = backbufferDepthStencilTextureHandle ∧
    ((recordFrameGraph backbufferEnv sampleCatalogue backbufferTask).1
      = .error ("FrameGraphGeometryRendererTask " ++ backbufferTask.name ++
        ": the depth/stencil back buffer is not allowed as a depth texture") ∧
    List.IsInfix backbufferTask.name.data
      ("FrameGraphGeometryRendererTask " ++ backbufferTask.name ++
        ": the depth/stencil back buffer is not allowed as a depth texture").data) :=
  ⟨rfl, by decide, rfl, rfl, rfl,
    backbuffer_depth_rejected_C4 backbufferEnv sampleCatalogue backbufferTask 5 100
      [(6, 5, "Albedo"), (6, 5, "Velocity"), (6, 5, "Albedo")]
      rfl (by decide) rfl rfl rfl⟩

/-- C3 (amended): when `depthTexture` is defined, resolves to a non-sentinel
handle, and that handle's descriptor sample count differs from the task's own
`samples`, `recordFrameGraph` throws a configuration error naming the task and
stating that the depth texture and the output texture must have the same
number of samples; the message does not quote the two counts. -/
theorem depth_sample_mismatch_throws_C3 (env : FrameGraphEnv)
    (cat : List GeometryTextureDescription) (t : GeometryRendererTask)
    (ol dt : Nat) (resolved : List (Nat × Nat × String))
    (hol : t.objectList = some ol) (hne : t.textureDescriptions ≠ [])
    (hres : resolveTextureDescriptions cat t.name t.textureDescriptions = .ok resolved)
    (hdt : t.depthTexture = some dt)
    (hnb : env.getTextureHandle dt ≠ backbufferDepthStencilTextureHandle)
    (hsm : env.getTextureSamples (env.getTextureHandle dt) ≠ t.samples) :
    (recordFrameGraph env cat t).1 = .error ("FrameGraphGeometryRendererTask " ++ t.name ++
      ": the depth texture and the output texture must have the same number of samples") ∧
    List.IsInfix t.name.data ("FrameGraphGeometryRendererTask " ++ t.name ++
      ": the depth texture and the output texture must have the same number of samples").data := by
  have hdep := checkDepth_mismatch env t dt hdt hnb hsm
  rw [recordFrameGraph_depthError env cat t ol resolved _ hol hne hres hdep]
  exact ⟨rfl, "FrameGraphGeometryRendererTask ".data,
    ": the depth texture and the output texture must have the same number of samples".data,
    by simp [String.data_append]⟩

/-- Witness for the amended C3 at `mismatchTask` under `sampleEnv` (color
target 1 sample, depth texture 4 samples). -/
theorem depth_sample_mismatch_throws_C3_witness :
    mismatchTask.objectList = some 5 ∧
    mismatchTask.textureDescriptions ≠ [] ∧
    resolveTextureDescriptions sampleCatalogue mismatchTask.name
      mismatchTask.textureDescriptions
      = .ok [(6, 5, "Albedo"), (6, 5, "Velocity"), (6, 5, "Albedo")] ∧
    mismatchTask.depthTexture = some 7 ∧
    sampleEnv.getTextureHandle 7 ≠ backbufferDepthStencilTextureHandle ∧
    sampleEnv.getTextureSamples (sampleEnv.getTextureHandle 7) ≠ mismatchTask.samples ∧
    ((recordFrameGraph sampleEnv sampleCatalogue mismatchTask).1
      = .error ("FrameGraphGeometryRendererTask " ++ mismatchTask.name ++
        ": the depth texture and the output texture must have the same number of samples") ∧
    List.IsInfix mismatchTask.name.data
      ("FrameGraphGeometryRendererTask " ++ mismatchTask.name ++
        ": the depth texture and the output texture must have the same number of samples").data) :=
  ⟨rfl, by decide, rfl, rfl, by decide, by decide,
    depth_sample_mismatch_throws_C3 sampleEnv sampleCatalogue mismatchTask 5 7
      [(6, 5, "Albedo"), (6, 5, "Velocity"), (6, 5, "Albedo")]
      rfl (by decide) rfl rfl (by decide) (by decide)⟩

/-- Counterexample to C3 as stated: at this concrete configuration (color
target 1 sample, depth texture 4 samples) the thrown message contains no digit
at all, so it does not name either count. -/
theorem depth_sample_mismatch_C3_counterexample :
    (recordFrameGraph sampleEnv sampleCatalogue mismatchTask).1
      = .error ("FrameGraphGeometryRendererTask geom: the depth texture and the output "
        ++ "texture must have the same number of samples") ∧
    sampleEnv.getTextureSamples (sampleEnv.getTextureHandle 7) = 4 ∧
    mismatchTask.samples = 1 ∧
    (("FrameGraphGeometryRendererTask geom: the depth texture and the output "
      ++ "texture must have the same number of samples").data.filter Char.isDigit) = [] :=
  ⟨rfl, rfl, rfl, rfl⟩

theorem resolveKinds_isSome_of_ok (cat : List GeometryTextureDescription) (name : String) :
    ∀ (descs : List GeometryRendererTextureDescription) (resolved : List (Nat × Nat × String)),
      resolveTextureDescriptions cat name descs = .ok resolved →
      ∃ ks, resolveKinds cat descs = some ks := by
  intro descs
  induction descs with
  | nil => intro resolved _; exact ⟨[], rfl⟩
  | cons d rest ih =>
    intro resolved h
    simp only [resolveTextureDescriptions] at h
    cases hf : findGeometryDescription cat d.type with
    | none => rw [hf] at h; cases h
    | some g =>
      rw [hf] at h
      cases hr : resolveTextureDescriptions cat name rest with
      | error e => rw [hr] at h; simp [Except.map] at h
      | ok l =>
        obtain ⟨ks, hks⟩ := ih l hr
        exact ⟨g.clearType :: ks, by simp only [resolveKinds, hf, hks, Option.map_some']⟩

/-- Recognizes a `clearColorAttachments` device call. -/
def DeviceCall.isClearColorAttachments : DeviceCall → Bool
  | .clearColorAttachments _ _ => true
  | _ => false

/-- Recognizes a `bindAttachments` device call. -/
def DeviceCall.isBindAttachments : DeviceCall → Bool
  | .bindAttachments _ => true
  | _ => false

/-- C9: for a successfully recorded pass over N planes with clear kinds `ks`,
the execute closure issues exactly one `clearColorAttachments` call per
distinct clear kind present (their number is the number of distinct kinds, not
N), each with the fixed clear color for its kind, then one single
`bindAttachments` call covering all N attachments, then renders. -/
theorem clear_once_per_kind_then_bind_C9 (env : FrameGraphEnv)
    (cat : List GeometryTextureDescription) (t : GeometryRendererTask)
    (ol : Nat) (resolved : List (Nat × Nat × String)) (ks : List TextureClearType)
    (depthEnabled : Bool)
    (hol : t.objectList = some ol) (hne : t.textureDescriptions ≠ [])
    (hres : resolveTextureDescriptions cat t.name t.textureDescriptions = .ok resolved)
    (hkinds : resolveKinds cat t.textureDescriptions = some ks)
    (hdep : checkDepthTextureCompatibility env t = .ok depthEnabled) :
    ∃ pass m,
      (recordFrameGraph env cat t).1 = .ok pass ∧
      buildClearAttachmentsLayoutBool cat t.textureDescriptions
        = some (m, List.replicate t.textureDescriptions.length true) ∧
      (m.map Prod.fst).Nodup ∧
      (∀ k, k ∈ m.map Prod.fst ↔ k ∈ ks) ∧
      pass.executeTrace =
        [DeviceCall.setRenderList ol, DeviceCall.incrementRenderId,
         DeviceCall.setDepthStates (t.depthTest && depthEnabled)
           (t.depthWrite && depthEnabled)] ++
        m.map (fun p => DeviceCall.clearColorAttachments (clearColors p.1)
          (env.buildTextureLayout p.2)) ++
        [DeviceCall.bindAttachments
          (env.buildTextureLayout (List.replicate t.textureDescriptions.length true)),
         DeviceCall.render] ∧
      (pass.executeTrace.filter DeviceCall.isClearColorAttachments).length
        = ks.dedup.length ∧
      (pass.executeTrace.filter DeviceCall.isBindAttachments).length = 1 := by
  obtain ⟨m, hb, hnd, hmem, _⟩ := buildClearAttachmentsLayoutBool_spec cat
    t.textureDescriptions ks hkinds
  have hrec := recordFrameGraph_ok env cat t ol resolved depthEnabled m
    (List.replicate t.textureDescriptions.length true) hol hne hres hdep hb
  refine ⟨_, m, by rw [hrec], hb, hnd, hmem, rfl, ?_, ?_⟩
  · show ((geometryRendererPass env t ol _ depthEnabled m _).executeTrace.filter
      DeviceCall.isClearColorAttachments).length = ks.dedup.length
    have hcount : m.length = ks.dedup.length := by
      have : (m.map Prod.fst).length = ks.dedup.length :=
        ((List.perm_ext_iff_of_nodup hnd ks.nodup_dedup).mpr
          (fun a => (hmem a).trans List.mem_dedup.symm)).length_eq
      simpa using this
    rw [geometryRendererPass]
    simp only [List.filter_append, List.filter_map]
    simp [DeviceCall.isClearColorAttachments, Function.comp, hcount]
    have hmid : List.filter
        (DeviceCall.isClearColorAttachments ∘ fun p =>
          DeviceCall.clearColorAttachments (clearColors p.1) (env.buildTextureLayout p.2)) m
        = m :=
      List.filter_eq_self.mpr (fun a _ => rfl)
    rw [hmid]
    exact hcount
  · rw [geometryRendererPass]
    simp only [List.filter_append, List.filter_map]
    simp [DeviceCall.isBindAttachments, Function.comp]

/-- A fully valid task with no depth texture. -/
def okTask : GeometryRendererTask :=
  { name := "geom", depthTexture := none, objectList := some 5, samples := 1,
    textureDescriptions := samplePlanes }

/-- A fully valid task with a compatible depth texture (both 4 samples under
`sampleEnv`), depth test on and depth write off. -/
def compatTask : GeometryRendererTask :=
  { name := "geom", depthTexture := some 7, objectList := some 5, samples := 4,
    textureDescriptions := samplePlanes, depthTest := true, depthWrite := false }

/-- Witness for C9 at `okTask` under `sampleEnv` (plane kinds One, MaxViewZ,
One: two distinct kinds and hence two clear calls for three attachments). -/
theorem clear_once_per_kind_then_bind_C9_witness :
    okTask.objectList = some 5 ∧
    okTask.textureDescriptions ≠ [] ∧
    resolveTextureDescriptions sampleCatalogue okTask.name okTask.textureDescriptions
      = .ok [(6, 5, "Albedo"), (6, 5, "Velocity"), (6, 5, "Albedo")] ∧
    resolveKinds sampleCatalogue okTask.textureDescriptions
      = some [TextureClearType.One, TextureClearType.MaxViewZ, TextureClearType.One] ∧
    checkDepthTextureCompatibility sampleEnv okTask = .ok false ∧
    (∃ pass m,
      (recordFrameGraph sampleEnv sampleCatalogue okTask).1 = .ok pass ∧
      buildClearAttachmentsLayoutBool sampleCatalogue okTask.textureDescriptions
        = some (m, List.replicate okTask.textureDescriptions.length true) ∧
      (m.map Prod.fst).Nodup ∧
      (∀ k, k ∈ m.map Prod.fst ↔
        k ∈ [TextureClearType.One, TextureClearType.MaxViewZ, TextureClearType.One]) ∧
      pass.executeTrace =
        [DeviceCall.setRenderList 5, DeviceCall.incrementRenderId,
         DeviceCall.setDepthStates (okTask.depthTest && false) (okTask.depthWrite && false)] ++
        m.map (fun p => DeviceCall.clearColorAttachments (clearColors p.1)
          (sampleEnv.buildTextureLayout p.2)) ++
        [DeviceCall.bindAttachments
          (sampleEnv.buildTextureLayout (List.replicate okTask.textureDescriptions.length true)),
         DeviceCall.render] ∧
      (pass.executeTrace.filter DeviceCall.isClearColorAttachments).length
        = [TextureClearType.One, TextureClearType.MaxViewZ, TextureClearType.One].dedup.length ∧
      (pass.executeTrace.filter DeviceCall.isBindAttachments).length = 1) :=
  ⟨rfl, by decide, rfl, rfl, rfl,
    clear_once_per_kind_then_bind_C9 sampleEnv sampleCatalogue okTask 5
      [(6, 5, "Albedo"), (6, 5, "Velocity"), (6, 5, "Albedo")]
      [TextureClearType.One, TextureClearType.MaxViewZ, TextureClearType.One] false
      rfl (by decide) rfl rfl rfl⟩

/-- C10: depth test and depth write are enabled at execution time only if an
explicit depth texture was provided at record time: when `depthTexture` is
undefined the recorded execute closure sets both to false regardless of the
task's `depthTest`/`depthWrite` flags; when it is defined and compatible, the
flags are passed through. -/
theorem depth_states_honor_depth_texture_C10 (env : FrameGraphEnv)
    (cat : List GeometryTextureDescription) (t : GeometryRendererTask)
    (ol : Nat) (resolved : List (Nat × Nat × String))
    (hol : t.objectList = some ol) (hne : t.textureDescriptions ≠ [])
    (hres : resolveTextureDescriptions cat t.name t.textureDescriptions = .ok resolved) :
    (t.depthTexture = none → ∃ pass,
      (recordFrameGraph env cat t).1 = .ok pass ∧
      pass.executeTrace[2]? = some (DeviceCall.setDepthStates false false)) ∧
    (∀ dt, t.depthTexture = some dt →
      env.getTextureHandle dt ≠ backbufferDepthStencilTextureHandle →
      env.getTextureSamples (env.getTextureHandle dt) = t.samples → ∃ pass,
      (recordFrameGraph env cat t).1 = .ok pass ∧
      pass.executeTrace[2]? = some (DeviceCall.setDepthStates t.depthTest t.depthWrite)) := by
  obtain ⟨ks, hks⟩ := resolveKinds_isSome_of_ok cat t.name t.textureDescriptions resolved hres
  obtain ⟨m, hb, _⟩ := buildClearAttachmentsLayoutBool_spec cat t.textureDescriptions ks hks
  constructor
  · intro hdt
    have hdep := checkDepth_none env t hdt
    have hrec := recordFrameGraph_ok env cat t ol resolved false m _ hol hne hres hdep hb
    refine ⟨_, by rw [hrec], ?_⟩
    rw [geometryRendererPass]
    simp
  · intro dt hdt hnb hsm
    have hdep := checkDepth_compatible env t dt hdt hnb hsm
    have hrec := recordFrameGraph_ok env cat t ol resolved true m _ hol hne hres hdep hb
    refine ⟨_, by rw [hrec], ?_⟩
    rw [geometryRendererPass]
    simp

/-- Witness for C10 at `compatTask` under `sampleEnv`. -/
theorem depth_states_honor_depth_texture_C10_witness :
    compatTask.objectList = some 5 ∧
    compatTask.textureDescriptions ≠ [] ∧
    resolveTextureDescriptions sampleCatalogue compatTask.name compatTask.textureDescriptions
      = .ok [(6, 5, "Albedo"), (6, 5, "Velocity"), (6, 5, "Albedo")] ∧
    ((compatTask.depthTexture = none → ∃ pass,
      (recordFrameGraph sampleEnv sampleCatalogue compatTask).1 = .ok pass ∧
      pass.executeTrace[2]? = some (DeviceCall.setDepthStates false false)) ∧
    (∀ dt, compatTask.depthTexture = some dt →
      sampleEnv.getTextureHandle dt ≠ backbufferDepthStencilTextureHandle →
      sampleEnv.getTextureSamples (sampleEnv.getTextureHandle dt) = compatTask.samples →
      ∃ pass,
      (recordFrameGraph sampleEnv sampleCatalogue compatTask).1 = .ok pass ∧
      pass.executeTrace[2]?
        = some (DeviceCall.setDepthStates compatTask.depthTest compatTask.depthWrite))) :=
  ⟨rfl, by decide, rfl,
    depth_states_honor_depth_texture_C10 sampleEnv sampleCatalogue compatTask 5
      [(6, 5, "Albedo"), (6, 5, "Velocity"), (6, 5, "Albedo")] rfl (by decide) rfl⟩

/-- The connection point kinds of the node render graph
(`NodeRenderGraphBlockConnectionPointTypes`), restricted to the members
involved in the bloom block's wiring. -/
inductive NodeRenderGraphBlockConnectionPointTypes where
  | Texture
  | TextureBackBuffer
  | TextureDepthStencilAttachment
  | ObjectList
  | Camera
  | BasedOnInput
deriving DecidableEq, Repr

/-- An output connection point as seen from a connected input: its resolved
kind. -/
structure NodeRenderGraphOutputPoint where
  kind : NodeRenderGraphBlockConnectionPointTypes
deriving DecidableEq, Repr

/-- An input connection point: its name, whether it was registered optional,
and the output point it is connected to (`none` while unconnected). -/
structure NodeRenderGraphInputPoint where
  name : String
  isOptional : Bool
  connectedPoint : Option NodeRenderGraphOutputPoint
deriving DecidableEq, Repr

/-- `isConnected` of a connection point: whether a connected point exists. -/
def NodeRenderGraphInputPoint.isConnected (p : NodeRenderGraphInputPoint) : Bool :=
  p.connectedPoint.isSome

/-- The two inputs the bloom block constructor registers:
`registerInput("source", Texture)` and
`registerInput("destination", Texture, true)`; its single output is declared
`BasedOnInput`. -/
structure BloomPostProcessBlock where
  source : NodeRenderGraphInputPoint
  destination : NodeRenderGraphInputPoint
deriving DecidableEq, Repr

/-- The `_typeConnectionSource` resolver the bloom constructor installs on the
output: `() => this.destination.isConnected ? this.destination : this.source`. -/
def bloomTypeConnectionSource (b : BloomPostProcessBlock) : NodeRenderGraphInputPoint :=
  if b.destination.isConnected then b.destination else b.source

/-- Modelled from the spec: an output declared BasedOnInput carries a resolver
function evaluated lazily on first read and takes the resolved kind of the
resolver's input (the generic getter lives in
nodeRenderGraphBlockConnectionPoint.ts, outside the analysed sources); an
input's resolved kind is the kind of the output it is connected to, `none`
while unconnected. -/
def bloomOutputResolvedType (b : BloomPostProcessBlock) :
    Option NodeRenderGraphBlockConnectionPointTypes :=
  (bloomTypeConnectionSource b).connectedPoint.map NodeRenderGraphOutputPoint.kind

/-- C2: the bloom block's BasedOnInput output resolves through the
`destination` input when that input is connected and through `source`
otherwise: connecting only source gives the output source's kind, and
connecting both gives it destination's kind. -/
theorem based_on_input_resolution_C2 (b : BloomPostProcessBlock) :
    (∀ q, b.destination.connectedPoint = some q →
      bloomTypeConnectionSource b = b.destination ∧
      bloomOutputResolvedType b = some q.kind) ∧
    (b.destination.connectedPoint = none →
      bloomTypeConnectionSource b = b.source ∧
      ∀ p, b.source.connectedPoint = some p → bloomOutputResolvedType b = some p.kind) := by
  constructor
  · intro q hq
    have hc : b.destination.isConnected = true := by
      simp [NodeRenderGraphInputPoint.isConnected, hq]
    refine ⟨?_, ?_⟩
    · simp [bloomTypeConnectionSource, hc]
    · simp [bloomOutputResolvedType, bloomTypeConnectionSource, hc, hq]
  · intro hq
    have hc : b.destination.isConnected = false := by
      simp [NodeRenderGraphInputPoint.isConnected, hq]
    refine ⟨?_, ?_⟩
    · simp [bloomTypeConnectionSource, hc]
    · intro p hp
      simp [bloomOutputResolvedType, bloomTypeConnectionSource, hc, hp]

/-- A bloom block with both inputs connected: source to a Texture output,
destination to a TextureBackBuffer output. -/
def sampleBloomBlock : BloomPostProcessBlock :=
  { source := { name := "source", isOptional := false,
                connectedPoint := some { kind := NodeRenderGraphBlockConnectionPointTypes.Texture } },
    destination := { name := "destination", isOptional := true,
                     connectedPoint := some { kind := NodeRenderGraphBlockConnectionPointTypes.TextureBackBuffer } } }

/-- Witness for C2 at `sampleBloomBlock` (both inputs connected: the output
takes destination's kind, TextureBackBuffer). -/
theorem based_on_input_resolution_C2_witness :
    sampleBloomBlock.destination.connectedPoint
      = some { kind := NodeRenderGraphBlockConnectionPointTypes.TextureBackBuffer } ∧
    ((∀ q, sampleBloomBlock.destination.connectedPoint = some q →
      bloomTypeConnectionSource sampleBloomBlock = sampleBloomBlock.destination ∧
      bloomOutputResolvedType sampleBloomBlock = some q.kind) ∧
    (sampleBloomBlock.destination.connectedPoint = none →
      bloomTypeConnectionSource sampleBloomBlock = sampleBloomBlock.source ∧
      ∀ p, sampleBloomBlock.source.connectedPoint = some p →
        bloomOutputResolvedType sampleBloomBlock = some p.kind)) :=
  ⟨by decide, based_on_input_resolution_C2 sampleBloomBlock⟩

/-- The teleport source block (`NodeRenderGraphTeleportInBlock`): its unique
id, its name, and the unique ids of the attached receivers (endpoints), kept
as weak id-based back references. -/
structure TeleportInBlock where
  uniqueId : Nat
  name : String
  endpointIds : List Nat
deriving DecidableEq, Repr

/-- The `entryPoint` field of a serialized teleport receiver:
`this.entryPoint?.uniqueId ?? ""` stores either the paired source's numeric
unique id or the empty string. -/
inductive SerializedEntryPointId where
  | id (uniqueId : Nat)
  | emptyString
deriving DecidableEq, Repr

/-- `NodeRenderGraphTeleportOutBlock`, the receiver side of a teleport edge:
`entryPoint` is the paired source (`null` while unpaired),
`tempEntryPointUniqueId` the id stashed by `_deserialize` until the second
resolution pass, `outputValue` the resolved value of the block's single
BasedOnInput output (`none` while unresolved). -/
structure TeleportOutBlock where
  uniqueId : Nat
  name : String
  entryPoint : Option TeleportInBlock
  tempEntryPointUniqueId : Option SerializedEntryPointId
  outputValue : Option Nat
deriving DecidableEq, Repr

/-- The serialized form of a teleport receiver relevant to pairing: the base
fields stored by `super.serialize()` (modelled from the spec's serialization
format: node id, class name, name) plus the receiver's own `entryPoint`
field. By construction it holds a numeric id, never a live block reference. -/
structure SerializedTeleportOutBlock where
  uniqueId : Nat
  className : String
  name : String
  entryPoint : SerializedEntryPointId
deriving DecidableEq, Repr

/-- `serialize()` of `NodeRenderGraphTeleportOutBlock`:
`serializationObject.entryPoint = this.entryPoint?.uniqueId ?? ""`. -/
def TeleportOutBlock.serialize (b : TeleportOutBlock) : SerializedTeleportOutBlock :=
  { uniqueId := b.uniqueId
    className := "NodeRenderGraphTeleportOutBlock"
    name := b.name
    entryPoint :=
      match b.entryPoint with
      | some e => .id e.uniqueId
      | none => .emptyString }

/-- `_deserialize` of `NodeRenderGraphTeleportOutBlock`: after the base
`super._deserialize` restores the primitive fields, stash the stored id in
`_tempEntryPointUniqueId`; resolving it to a live node is deferred to a later
second pass. -/
def TeleportOutBlock.deserialize (b : TeleportOutBlock)
    (s : SerializedTeleportOutBlock) : TeleportOutBlock :=
  { b with name := s.name, tempEntryPointUniqueId := some s.entryPoint }

/-- `_customBuildStep` of the teleport receiver: build the paired entry point
when one is attached, otherwise do nothing. The entry point's own build step
is an arbitrary build-state transformer `buildEntryPoint` (teleportInBlock.ts
is outside the analysed sources); `Except` models a possible build-time
throw. -/
def TeleportOutBlock.customBuildStep {σ : Type} (b : TeleportOutBlock)
    (buildEntryPoint : TeleportInBlock → σ → Except String σ) (s : σ) : Except String σ :=
  match b.entryPoint with
  | some e => buildEntryPoint e s
  | none => .ok s

/-- `_buildBlock` of the teleport receiver: a no-op ("all work done by the
emitter"); in particular it does not assign the output's value. -/
def TeleportOutBlock.buildBlock (b : TeleportOutBlock) : TeleportOutBlock := b

/-- Modelled from the spec: `attach(receiver)` on the source side stores a
direct reference and pairs the receiver
(`NodeRenderGraphTeleportInBlock.attachToEndpoint` lives in
teleportInBlock.ts, outside the analysed sources): the receiver is recorded
among the source's endpoints and the receiver's `entryPoint` becomes the
source. -/
def attachToEndpoint (src : TeleportInBlock) (receiver : TeleportOutBlock) :
    TeleportInBlock × TeleportOutBlock :=
  ({ src with endpointIds := src.endpointIds ++ [receiver.uniqueId] },
   { receiver with entryPoint := some src })

/-- Modelled from the spec: `super.clone()` reconstructs a fresh block of the
same class with the same primitive properties under a new unique id; a fresh
receiver starts unpaired (the `_entryPoint = null` field initializer in
teleportOutBlock.ts) with an unresolved output. -/
def TeleportOutBlock.superClone (b : TeleportOutBlock) (freshId : Nat) : TeleportOutBlock :=
  { uniqueId := freshId, name := b.name, entryPoint := none,
    tempEntryPointUniqueId := none, outputValue := none }

/-- `clone()` of the teleport receiver: clone via the base implementation,
then, when an entry point is attached, call `entryPoint.attachToEndpoint` on
the clone. Returns the clone and the updated entry point (unchanged pairing
state when there was none). -/
def TeleportOutBlock.clone (b : TeleportOutBlock) (freshId : Nat) :
    TeleportOutBlock × Option TeleportInBlock :=
  let c := b.superClone freshId
  match b.entryPoint with
  | some e =>
    let r := attachToEndpoint e c
    (r.2, some r.1)
  | none => (c, none)

/-- C6: building a teleport receiver whose entry point is null does not throw
and performs no work: `_customBuildStep` builds the paired entry point only
when one is attached (otherwise it returns the build state unchanged),
`_buildBlock` is a no-op, and the block's output stays unresolved. -/
theorem teleport_out_null_entry_build_C6 {σ : Type}
    (b : TeleportOutBlock) (buildEntryPoint : TeleportInBlock → σ → Except String σ) (s : σ)
    (h : b.entryPoint = none) (hout : b.outputValue = none) :
    b.customBuildStep buildEntryPoint s = .ok s ∧
    b.buildBlock = b ∧
    (b.buildBlock).outputValue = none := by
  refine ⟨?_, rfl, hout⟩
  simp [TeleportOutBlock.customBuildStep, h]

/-- An unpaired teleport receiver. -/
def unpairedReceiver : TeleportOutBlock :=
  { uniqueId := 42, name := "out", entryPoint := none,
    tempEntryPointUniqueId := none, outputValue := none }

/-- Witness for C6 at `unpairedReceiver` with build state 0 and an entry-point
build step that would change the state. -/
theorem teleport_out_null_entry_build_C6_witness :
    unpairedReceiver.entryPoint = none ∧
    unpairedReceiver.outputValue = none ∧
    (unpairedReceiver.customBuildStep (fun _ n => Except.ok (n + 1)) 0 = .ok 0 ∧
    unpairedReceiver.buildBlock = unpairedReceiver ∧
    (unpairedReceiver.buildBlock).outputValue = none) :=
  ⟨rfl, rfl,
    teleport_out_null_entry_build_C6 unpairedReceiver (fun _ n => Except.ok (n + 1)) 0 rfl rfl⟩

/-- C7: `serialize` stores only the paired entry point's numeric unique id in
the serialized object (the serialized form carries an id, not a live
reference), `_deserialize` sets `_tempEntryPointUniqueId` to exactly the
stored id, deferring resolution to a later second pass; round trip: after
`_deserialize(serialize())` the stashed id equals the original entry point's
unique id. -/
theorem teleport_serialize_roundtrip_C7 (b b2 : TeleportOutBlock) (e : TeleportInBlock)
    (h : b.entryPoint = some e) :
    (b.serialize).entryPoint = SerializedEntryPointId.id e.uniqueId ∧
    (∀ s, (b2.deserialize s).tempEntryPointUniqueId = some s.entryPoint) ∧
    (b2.deserialize b.serialize).tempEntryPointUniqueId
      = some (SerializedEntryPointId.id e.uniqueId) := by
  have h1 : (b.serialize).entryPoint = SerializedEntryPointId.id e.uniqueId := by
    simp [TeleportOutBlock.serialize, h]
  exact ⟨h1, fun s => rfl, by rw [show (b2.deserialize b.serialize).tempEntryPointUniqueId
    = some (b.serialize).entryPoint from rfl, h1]⟩

/-- A teleport source with one endpoint recorded. -/
def pairedSource : TeleportInBlock :=
  { uniqueId := 7, name := "in", endpointIds := [42] }

/-- A receiver paired with `pairedSource`. -/
def pairedReceiver : TeleportOutBlock :=
  { uniqueId := 42, name := "out", entryPoint := some pairedSource,
    tempEntryPointUniqueId := none, outputValue := none }

/-- Witness for C7: serialize `pairedReceiver`, deserialize into a fresh
receiver, and recover entry-point id 7. -/
theorem teleport_serialize_roundtrip_C7_witness :
    pairedReceiver.entryPoint = some pairedSource ∧
    ((pairedReceiver.serialize).entryPoint = SerializedEntryPointId.id pairedSource.uniqueId ∧
    (∀ s, (unpairedReceiver.deserialize s).tempEntryPointUniqueId = some s.entryPoint) ∧
    (unpairedReceiver.deserialize pairedReceiver.serialize).tempEntryPointUniqueId
      = some (SerializedEntryPointId.id pairedSource.uniqueId)) :=
  ⟨rfl, teleport_serialize_roundtrip_C7 pairedReceiver unpairedReceiver pairedSource rfl⟩

/-- C8: cloning a receiver attached to entry point E re-attaches the clone to
the same E — `E.attachToEndpoint(clone)` runs, so the clone's entry point is E
and E's endpoint list gains the clone's id; cloning an unpaired receiver
leaves the clone unattached. -/
theorem teleport_out_clone_C8 (b : TeleportOutBlock) (freshId : Nat) :
    (∀ e, b.entryPoint = some e →
      (b.clone freshId).1.entryPoint = some e ∧
      (b.clone freshId).2 = some { e with endpointIds := e.endpointIds ++ [freshId] }) ∧
    (b.entryPoint = none →
      (b.clone freshId).1.entryPoint = none ∧ (b.clone freshId).2 = none) := by
  constructor
  · intro e he
    constructor
    · simp [TeleportOutBlock.clone, he, attachToEndpoint]
    · simp [TeleportOutBlock.clone, he, attachToEndpoint, TeleportOutBlock.superClone]
  · intro he
    exact ⟨by simp [TeleportOutBlock.clone, he, TeleportOutBlock.superClone],
      by simp [TeleportOutBlock.clone, he]⟩

/-- Witness for C8: cloning `pairedReceiver` under fresh id 99 re-attaches the
clone to `pairedSource`, whose endpoints become [42, 99]. -/
theorem teleport_out_clone_C8_witness :
    pairedReceiver.entryPoint = some pairedSource ∧
    ((∀ e, pairedReceiver.entryPoint = some e →
      (pairedReceiver.clone 99).1.entryPoint = some e ∧
      (pairedReceiver.clone 99).2 = some { e with endpointIds := e.endpointIds ++ [99] }) ∧
    (pairedReceiver.entryPoint = none →
      (pairedReceiver.clone 99).1.entryPoint = none ∧ (pairedReceiver.clone 99).2 = none)) :=
  ⟨rfl, teleport_out_clone_C8 pairedReceiver 99⟩
